import Mathlib

/-!
A verification development for the ThreatVault plugin adapters.

Each plugin exposes `process(file: bytes, file_type: str)` and turns one
scanner's native output (CSV / JSON / XML) into the canonical 9-column
ThreatVault row set.  The definitions below are shallow embeddings of the
per-adapter transformation pipelines.  Byte-level parsing (CSV splitting,
JSON decoding, XML reading) is an external step: every `process` model
receives the parse outcome as an `Except String` value, so that a parse
failure is an `error` input and the file-type check (which the source
performs before parsing, or before the lazy pipeline is forced) can be
shown to fire regardless of it.  For the two polars `LazyFrame` adapters
the model gives the semantics of the collected pipeline.

Cells of a data frame are `Option String` (a `none` is a polars null);
dict fields defaulted with `.get(key, "")` are `Option String` read
through `getS`.
-/

/-- The four permitted risk values, as in every adapter's `valid_risks` list. -/
def validRisks : List String := ["CRITICAL", "HIGH", "MEDIUM", "LOW"]

/-- The canonical 9-column output schema, in its fixed order. -/
def canonicalHeader : List String :=
  ["cve", "risk", "host", "port", "name", "description", "remediation", "evidence", "vpr_score"]

/-- ASCII lower-casing, one character at a time (`str.lower()` on the ASCII inputs used here). -/
def lowerStr (s : String) : String := ⟨s.data.map Char.toLower⟩

/-- ASCII upper-casing (`str.upper()` / polars `str.to_uppercase`). -/
def upperStr (s : String) : String := ⟨s.data.map Char.toUpper⟩

/-- Python's falsy-or on strings: `a or b` returns `b` exactly when `a` is empty. -/
def pyOr (a b : String) : String := if a = "" then b else a

/-- `dict.get(key, "")`: a missing key yields the empty string. -/
def getS (o : Option String) : String := o.getD ""

/-- One left-to-right pass replacing each newline character with the marker `rep`
(the list-level core of `str.replace_all("\n", rep)`). -/
def brSubList (rep : List Char) : List Char → List Char
  | [] => []
  | c :: cs => if c = '\n' then rep ++ brSubList rep cs else c :: brSubList rep cs

/-- `str.replace_all("\n", rep)` on strings. -/
def brSubS (rep : String) (s : String) : String := ⟨brSubList rep.data s.data⟩

/-- Strip leading and trailing whitespace (`str.strip()` / polars `str.strip_chars()`). -/
def stripList (l : List Char) : List Char :=
  ((l.dropWhile Char.isWhitespace).reverse.dropWhile Char.isWhitespace).reverse

/-- `str.strip()` on strings. -/
def stripS (s : String) : String := ⟨stripList s.data⟩

/-- Python `str.replace(pat, rep)` for a non-empty `pat`: non-overlapping
left-to-right replacement of every occurrence.  The fuel argument (the input
length) makes the recursion structural; one input character is consumed per
step, so the fuel never runs out. -/
def replaceAllFuel (pat rep : List Char) : Nat → List Char → List Char
  | _, [] => []
  | 0, l => l
  | n+1, c :: cs =>
    if pat.isPrefixOf (c :: cs) then rep ++ replaceAllFuel pat rep n (cs.drop (pat.length - 1))
    else c :: replaceAllFuel pat rep n cs

/-- Python `str.replace` on strings. -/
def pyReplace (s pat rep : String) : String :=
  ⟨replaceAllFuel pat.data rep.data s.data.length s.data⟩

/-- A data frame: a header of column names and rows of nullable string cells. -/
structure Frame where
  header : List String
  rows : List (List (Option String))
deriving DecidableEq

/-- Read cell `i` of a row; out-of-range reads are nulls. -/
def cellAt (row : List (Option String)) (i : Nat) : Option String := row.getD i none

/-- The canonical output row: exactly the 9 fields, in the fixed order.
`port` is the only integer column; every field is nullable because CSV cells
and JSON fields can be null and the adapters propagate those nulls. -/
structure CanonicalRow where
  cve : Option String
  risk : Option String
  host : Option String
  port : Option Int
  name : Option String
  description : Option String
  remediation : Option String
  evidence : Option String
  vpr_score : Option String
deriving DecidableEq

/-- The shared risk filter `df.filter(pl.col("risk").is_in(valid_risks))`:
a null risk is dropped (polars `is_in` on null is null, which filters out). -/
def keepRisk (r : CanonicalRow) : Bool :=
  match r.risk with
  | some s => validRisks.contains s
  | none => false

/-- The Nessus CSV risk filter `pl.col(risk) != "None"` (with the compliance
variant's explicit `is_not_null`): a null comparison is null, which the
filter drops, so both variants keep exactly the non-null cells other
than the literal `"None"`. -/
def keepNessusRisk (c : Option String) : Bool :=
  match c with
  | some v => v ≠ "None"
  | none => false

/-- A string having no raw newline left in it. -/
def noNl (s : String) : Prop := '\n' ∉ s.data

/-- A nullable cell having no raw newline in it (vacuous for nulls). -/
def noNlO (o : Option String) : Prop := ∀ s, o = some s → noNl s

/-- The header of the ThreatVault-format CSV (the exporter's `CSV_HEADERS`),
which is also the header shape of the Nessus CSV exports the two Nessus
adapters consume. -/
def csvHeaders : List String :=
  ["CVE", "Risk", "Host", "Port", "Name", "Description", "Solution", "Plugin Output", "VPR Score"]

/-- One arbitrary data row under the `csvHeaders` header, used to quantify
over whole CSV inputs of the standard shape in the theorems below. -/
structure NessusRow where
  cveC : Option String
  riskC : Option String
  hostC : Option String
  portC : Option String
  nameC : Option String
  descC : Option String
  solC : Option String
  poC : Option String
  vprC : Option String
deriving DecidableEq

/-- The cells of a `NessusRow` in `csvHeaders` order. -/
def NessusRow.toList (x : NessusRow) : List (Option String) :=
  [x.cveC, x.riskC, x.hostC, x.portC, x.nameC, x.descC, x.solC, x.poC, x.vprC]

namespace Burp

/-- The `<host>` child element of an issue: its text content and its `ip` attribute. -/
structure HostElem where
  text : Option String
  ip : Option String
deriving DecidableEq

/-- The `<request>` child of a `<requestresponse>` element. -/
structure RequestElem where
  text : Option String
deriving DecidableEq

/-- The `<requestresponse>` child of an issue. -/
structure ReqResp where
  request : Option RequestElem
deriving DecidableEq

/-- One `<issue>` element of a Burp Suite XML export.  Simple children read
through `findtext(tag, '')` are `Option String` (`none` is an absent child;
`findtext` returns `''` both for an absent child and for a child with no
text, which `getS` reproduces). -/
structure Issue where
  severity : Option String
  host : Option HostElem
  name : Option String
  issueBackground : Option String
  issueDetail : Option String
  remediationBackground : Option String
  remediationDetail : Option String
  requestresponse : Option ReqResp
deriving DecidableEq

/-- The adapter's `supported_types` list. -/
def supportedTypes : List String := ["xml", "application/xml", "text/xml", "application/x-xml"]

/-- The record built for one issue (burpsuite.py lines 56-102): field
extraction with the hostname-then-ip fallback and the background-then-detail
fallbacks, via Python `or` truthiness. -/
def issueRecord (i : Issue) : CanonicalRow :=
  { cve := some ""
    risk := some (getS i.severity)
    host := some (match i.host with
      | some h => pyOr (getS h.text) (pyOr (getS h.ip) "")
      | none => "")
    port := some 0
    name := some (getS i.name)
    description := some (pyOr (getS i.issueBackground) (getS i.issueDetail))
    remediation := some (pyOr (getS i.remediationBackground) (getS i.remediationDetail))
    evidence := some (match i.requestresponse with
      | some rr => match rr.request with
        | some rq => getS rq.text
        | none => ""
      | none => "")
    vpr_score := some "" }

/-- The newline pass on description, remediation and evidence (lines 124-130). -/
def brRecord (r : CanonicalRow) : CanonicalRow :=
  { r with
      description := r.description.map (brSubS "<br/>")
      remediation := r.remediation.map (brSubS "<br/>")
      evidence := r.evidence.map (brSubS "<br/>") }

/-- Risk upper-casing (lines 133-135). -/
def upperRecord (r : CanonicalRow) : CanonicalRow := { r with risk := r.risk.map upperStr }

/-- `process` of Plugins/VAPT/DAST/BurpSuite/burpsuite.py: case-insensitive
file-type check, then record extraction, the early empty-schema return,
newline substitution, risk upper-casing and the risk filter. -/
def process (fileType : String) (p : Except String (List Issue)) :
    Except String (List CanonicalRow) :=
  if (supportedTypes.map lowerStr).contains (lowerStr fileType) then
    p.map fun issues =>
      let records := issues.map issueRecord
      if records.isEmpty then []
      else ((records.map brRecord).map upperRecord).filter keepRisk
  else
    .error ("Unsupported file type: " ++ fileType ++ ". Expected XML format.")

end Burp

namespace Semgrep

/-- A `start`/`end` position object: its `line` field. -/
structure Pos where
  line : Option Int
deriving DecidableEq

/-- The `extra` object of a result. -/
structure Extra where
  message : Option String
  fix : Option String
deriving DecidableEq

/-- One entry of the Semgrep `results` array.  The source key `end` is a
reserved word here and is embedded as `endPos`. -/
structure Result where
  check_id : Option String
  path : Option String
  start : Option Pos
  endPos : Option Pos
  extra : Option Extra
deriving DecidableEq

/-- The decoded Semgrep JSON document: `data.get('results', [])`. -/
structure Data where
  results : Option (List Result)
deriving DecidableEq

/-- The record built for one result (semgrep.py lines 46-75). -/
def resultRecord (r : Result) : CanonicalRow :=
  let start_line : Int := match r.start with | some p => p.line.getD 0 | none => 0
  let end_line : Int := match r.endPos with | some p => p.line.getD 0 | none => 0
  let message := match r.extra with | some e => getS e.message | none => ""
  let fix := match r.extra with | some e => getS e.fix | none => ""
  { cve := some ""
    risk := some "Medium"
    host := some "semgrep"
    port := some start_line
    name := some (getS r.check_id)
    description := some message
    remediation := some fix
    evidence := some ("Line " ++ toString start_line ++ " - " ++ toString end_line
      ++ " in file : " ++ getS r.path)
    vpr_score := some "" }

/-- The newline pass on description, remediation and evidence (lines 96-103). -/
def brRecord (r : CanonicalRow) : CanonicalRow :=
  { r with
      description := r.description.map (brSubS "<br/>")
      remediation := r.remediation.map (brSubS "<br/>")
      evidence := r.evidence.map (brSubS "<br/>") }

/-- `process` of Plugins/VAPT/SAST/Semgrep/semgrep.py: file-type check against
`["application/json", "json"]`, record extraction, the early empty-schema
return, then newline substitution.  No risk filter runs: every row keeps the
hard-coded `'Medium'`. -/
def process (fileType : String) (p : Except String Data) :
    Except String (List CanonicalRow) :=
  if (["application/json", "json"] : List String).contains fileType then
    p.map fun d =>
      let records := (d.results.getD []).map resultRecord
      if records.isEmpty then [] else records.map brRecord
  else
    .error ("Unsupported file type: " ++ fileType ++ ". Expected JSON.")

end Semgrep

namespace TrivyVA

/-- `location.dependency.package` of a legacy vulnerability. -/
structure Package where
  name : Option String
deriving DecidableEq

/-- `location.dependency` of a legacy vulnerability. -/
structure Dependency where
  package : Option Package
  version : Option String
deriving DecidableEq

/-- `location` of a legacy vulnerability. -/
structure Location where
  image : Option String
  dependency : Option Dependency
deriving DecidableEq

/-- One record of the legacy `vulnerabilities` array.  `Title` is carried by
the JSON object but is never read by `_parse_legacy_vulnerability`. -/
structure LegacyVuln where
  VulnerabilityID : Option String
  id : Option String
  cve : Option String
  Severity : Option String
  severity : Option String
  location : Option Location
  PkgName : Option String
  name : Option String
  message : Option String
  Description : Option String
  description : Option String
  FixedVersion : Option String
  solution : Option String
  Title : Option String
deriving DecidableEq

/-- One record of a modern `Results[].Vulnerabilities` array. -/
structure ModernVuln where
  VulnerabilityID : Option String
  Severity : Option String
  PkgName : Option String
  Description : Option String
  Title : Option String
  FixedVersion : Option String
deriving DecidableEq

/-- One entry of the modern `Results` array.  For `Vulnerabilities`, the
outer `none` is a missing key (`.get` defaults it to `[]`), `some none` is an
explicit JSON null (the `continue` branch), and `some (some vs)` is a list. -/
structure TrivyResult where
  Target : Option String
  Vulnerabilities : Option (Option (List ModernVuln))
deriving DecidableEq

/-- The decoded Trivy JSON document; the legacy key is checked first, so it
wins when both are present (`if "vulnerabilities" in data ... elif`). -/
structure Data where
  vulnerabilities : Option (List LegacyVuln)
  Results : Option (List TrivyResult)
deriving DecidableEq

/-- `_parse_legacy_vulnerability` (trivy.py lines 108-155).  The `data`
argument is accepted, as in the source, but not consulted. -/
def parse_legacy_vulnerability (vuln : LegacyVuln) (data : Data) : CanonicalRow :=
  let cve_id := pyOr (getS vuln.VulnerabilityID) (pyOr (getS vuln.id) (getS vuln.cve))
  let severity := pyOr (getS vuln.Severity) (getS vuln.severity)
  let image := match vuln.location with
    | some loc => getS loc.image
    | none => ""
  let package_name := match vuln.location with
    | some loc => match loc.dependency with
      | some dep => getS (dep.package.bind fun p => p.name)
      | none => ""
    | none => ""
  let name := pyOr package_name (pyOr (getS vuln.PkgName)
    (pyOr (getS vuln.name) (pyOr (getS vuln.message) cve_id)))
  let description := pyOr (getS vuln.Description) (getS vuln.description)
  let solution0 := pyOr (getS vuln.FixedVersion) (getS vuln.solution)
  let solution := if solution0 = "" ∨ solution0 = "No solution provided"
    then "No fix available" else solution0
  { cve := some cve_id, risk := some severity, host := some image, port := some 0,
    name := some name, description := some description, remediation := some solution,
    evidence := some "", vpr_score := some "" }

/-- `_parse_modern_vulnerability` (trivy.py lines 158-200). -/
def parse_modern_vulnerability (vuln : ModernVuln) (target : String) : CanonicalRow :=
  let cve_id := getS vuln.VulnerabilityID
  let severity := getS vuln.Severity
  let package_name := getS vuln.PkgName
  let description0 := getS vuln.Description
  let description := if description0 = "" then getS vuln.Title else description0
  let fixed_version := getS vuln.FixedVersion
  let solution := if fixed_version ≠ "" then "Upgrade to version " ++ fixed_version
    else "No fix available"
  { cve := some cve_id, risk := some severity, host := some target, port := some 0,
    name := some package_name, description := some description, remediation := some solution,
    evidence := some "", vpr_score := some "" }

/-- The records contributed by one modern `Results` entry. -/
def modernRecords (r : TrivyResult) : List CanonicalRow :=
  let target := getS r.Target
  match r.Vulnerabilities with
  | none => []
  | some none => []
  | some (some vs) => vs.map fun v => parse_modern_vulnerability v target

/-- The newline pass on description and remediation only (lines 88-94):
`evidence` is the literal empty string in both record builders and is not
touched. -/
def brRecord (r : CanonicalRow) : CanonicalRow :=
  { r with
      description := r.description.map (brSubS "<br/>")
      remediation := r.remediation.map (brSubS "<br/>") }

/-- Risk upper-casing (lines 96-99). -/
def upperRecord (r : CanonicalRow) : CanonicalRow := { r with risk := r.risk.map upperStr }

/-- The tail of the pipeline: early empty-schema return, newline
substitution, risk upper-casing and the risk filter (lines 69-105). -/
def finish (records : List CanonicalRow) : List CanonicalRow :=
  if records.isEmpty then []
  else ((records.map brRecord).map upperRecord).filter keepRisk

/-- `process` of Plugins/VAPT/VA/Trivy/trivy.py: file-type check, then the
legacy/modern shape dispatch, then the shared pipeline tail. -/
def process (fileType : String) (p : Except String Data) :
    Except String (List CanonicalRow) :=
  if (["application/json", "json"] : List String).contains fileType then
    p.bind fun data =>
      match data.vulnerabilities with
      | some vulns => .ok (finish (vulns.map fun v => parse_legacy_vulnerability v data))
      | none =>
        match data.Results with
        | some results => .ok (finish (results.map modernRecords).flatten)
        | none => .error "Unsupported Trivy JSON format. Expected 'vulnerabilities' or 'Results' key."
  else
    .error ("Unsupported file type: " ++ fileType ++ ". Expected JSON.")

end TrivyVA

namespace TrivySCA

/-- `location.dependency.package` of a vulnerability. -/
structure Package where
  name : Option String
deriving DecidableEq

/-- `location.dependency` of a vulnerability. -/
structure Dependency where
  package : Option Package
  version : Option String
deriving DecidableEq

/-- `location` of a vulnerability. -/
structure Location where
  image : Option String
  dependency : Option Dependency
deriving DecidableEq

/-- One element of the nested `vulnerabilities` array after the
explode/unnest flattening; struct-field accesses on nulls are nulls. -/
structure ScaVuln where
  id : Option String
  severity : Option String
  message : Option String
  description : Option String
  solution : Option String
  location : Option Location
deriving DecidableEq

/-- The decoded SCA Trivy JSON document.  A missing `vulnerabilities` key is
a collect-time ColumnNotFound error; exploding an empty or null array yields
a single all-null row whose null risk the filter drops, which coincides with
the empty list here. -/
structure Data where
  vulnerabilities : Option (List ScaVuln)
deriving DecidableEq

/-- The two `with_columns` blocks of Plugins/VAPT/SCA/Trivy/trivy.py (lines
16-59): nested-field extraction (null-propagating) and the field mappings.
`name` uses `pl.coalesce`, which takes the first non-null (not the first
non-empty) of package name, message and the CVE id; `pkg_version` is
extracted in the source but never selected, and is omitted.  The final
`select` is the `CanonicalRow` shape itself. -/
def vulnRecord (v : ScaVuln) : CanonicalRow :=
  let host := v.location.bind fun l => l.image
  let pkg_name := v.location.bind fun l =>
    l.dependency.bind fun d => d.package.bind fun p => p.name
  { cve := v.id
    risk := v.severity.map upperStr
    host := host
    port := some 0
    name := (pkg_name.orElse fun _ => v.message).orElse fun _ => v.id
    description := v.description
    remediation := v.solution
    evidence := some ""
    vpr_score := some "" }

/-- The newline pass on description and remediation only (lines 64-70). -/
def brRecord (r : CanonicalRow) : CanonicalRow :=
  { r with
      description := r.description.map (brSubS "<br/>")
      remediation := r.remediation.map (brSubS "<br/>") }

/-- `process` of Plugins/VAPT/SCA/Trivy/trivy.py: the exact-match `"json"`
file-type check, then extraction, the risk filter, and the newline pass
(which the source runs after the filter). -/
def process (fileType : String) (p : Except String Data) :
    Except String (List CanonicalRow) :=
  if fileType = "json" then
    p.bind fun d =>
      match d.vulnerabilities with
      | none => .error "column not found: vulnerabilities"
      | some vs => .ok (((vs.map vulnRecord).filter keepRisk).map brRecord)
  else
    .error ("Unsupported file type: " ++ fileType)

end TrivySCA

namespace ThreatCode

/-- Header normalization `x.strip().lower().replace(" ", "_")`; replacing the
single-space substring is a per-character substitution. -/
def normHdr (s : String) : String :=
  ⟨(lowerStr (stripS s)).data.map fun c => if c = ' ' then '_' else c⟩

/-- Digits to a number, most significant first. -/
def digitsToNat (ds : List Char) : Nat := ds.foldl (fun a c => a * 10 + (c.toNat - 48)) 0

/-- `re.search(r'Line:\s*(\d+)', s)`: the leftmost position where `Line:` is
followed by optional whitespace and at least one digit; the group is the
maximal digit run there. -/
def lineScan : List Char → Option Nat
  | [] => none
  | c :: cs =>
    if ("Line:".data).isPrefixOf (c :: cs) then
      let after := ((c :: cs).drop 5).dropWhile Char.isWhitespace
      let ds := after.takeWhile Char.isDigit
      if ds.isEmpty then lineScan cs else some (digitsToNat ds)
    else lineScan cs

/-- `extract_first_line_number` (threatcode.py lines 55-64). -/
def extract_first_line_number (s : String) : Int :=
  if s = "" ∨ stripS s = "" then 0
  else match lineScan s.data with
    | some n => (n : Int)
    | none => 0

/-- The newline pass on description, remediation and evidence (lines 87-91). -/
def brRecord (r : CanonicalRow) : CanonicalRow :=
  { r with
      description := r.description.map (brSubS "<br/>")
      remediation := r.remediation.map (brSubS "<br/>")
      evidence := r.evidence.map (brSubS "<br/>") }

/-- The 9-column select (threatcode.py lines 74-84) applied to one row,
given the positions of the eight consumed columns: risk upper-cased, cve and
vpr_score null-filled, the port repurposed to the first `Line:` number of the
plugin output (`map_elements` skips nulls). -/
def buildRow (ci ri hi ni di si poi vi : Nat) (row : List (Option String)) : CanonicalRow :=
  let po := cellAt row poi
  { cve := some (getS (cellAt row ci))
    risk := (cellAt row ri).map upperStr
    host := cellAt row hi
    port := po.map extract_first_line_number
    name := cellAt row ni
    description := cellAt row di
    remediation := cellAt row si
    evidence := po
    vpr_score := some ((cellAt row vi).getD "0") }

/-- `process` of Plugins/VAPT/SAST/ThreatCode/threatcode.py: file-type check
against `["text/csv", "csv"]`, header normalization, the 9-column select, the
newline pass, the risk filter and the empty-result schema return.  A missing
column is a polars error. -/
def process (fileType : String) (p : Except String Frame) :
    Except String (List CanonicalRow) :=
  if (["text/csv", "csv"] : List String).contains fileType then
    p.bind fun f =>
      let hdr := f.header.map normHdr
      match hdr.indexOf? "cve", hdr.indexOf? "risk", hdr.indexOf? "host", hdr.indexOf? "name",
            hdr.indexOf? "description", hdr.indexOf? "solution", hdr.indexOf? "plugin_output",
            hdr.indexOf? "vpr_score" with
      | some ci, some ri, some hi, some ni, some di, some si, some poi, some vi =>
        let records := f.rows.map (buildRow ci ri hi ni di si poi vi)
        let out := (records.map brRecord).filter keepRisk
        .ok (if out.isEmpty then [] else out)
      | _, _, _, _, _, _, _, _ => .error "column not found"
  else
    .error ("Unsupported file type: " ++ fileType ++ ". Expected CSV.")

end ThreatCode

namespace VANessus

/-- Header normalization `"_".join(x.lower().split(" "))`: splitting on every
single space (keeping empties) and re-joining with underscores replaces each
space with an underscore. -/
def normHdr (s : String) : String :=
  ⟨(lowerStr s).data.map fun c => if c = ' ' then '_' else c⟩

/-- One `with_columns` cell pass over the columns at the given indices. -/
def mapCellsFrom (ks : List Nat) (g : Option String → Option String) :
    Nat → List (Option String) → List (Option String)
  | _, [] => []
  | i, c :: cs => (if ks.contains i then g c else c) :: mapCellsFrom ks g (i+1) cs

/-- `process` of Plugins/VAPT/VA/Nessus/nessus.py (the collected lazy
pipeline): exact `"text/csv"` file-type check, header normalization, the
`risk != "None"` filter, the newline pass (marker `" <br/> "`) on solution /
description / plugin_output, and the renames to remediation / evidence.
No risk-enumeration filter and no column projection run: all other input
columns pass through, and `risk` keeps whatever non-`"None"` value it had. -/
def process (fileType : String) (p : Except String Frame) : Except String Frame :=
  if fileType ≠ "text/csv" then .error ("File type not supported: " ++ fileType)
  else p.bind fun f =>
    let hdr := f.header.map normHdr
    match hdr.indexOf? "risk", hdr.indexOf? "solution", hdr.indexOf? "description",
          hdr.indexOf? "plugin_output" with
    | some ri, some si, some di, some poi =>
      let filtered := f.rows.filter fun row => keepNessusRisk (cellAt row ri)
      let rows2 := filtered.map (mapCellsFrom [si, di, poi] (Option.map (brSubS " <br/> ")) 0)
      let hdr2 := hdr.map fun h =>
        if h = "solution" then "remediation" else if h = "plugin_output" then "evidence" else h
      .ok ⟨hdr2, rows2⟩
    | _, _, _, _ => .error "column not found"

end VANessus

namespace ComplianceNessus

/-- The match condition of `^(.*): \[.*\]` at offset `k` of the first line:
`": ["` sits at `k` and a `]` follows later on the same line. -/
def namePred (line1 : List Char) (k : Nat) : Bool :=
  (": [".data).isPrefixOf (line1.drop k) && (line1.drop (k + 3)).contains ']'

/-- The greatest `k ≤ n` satisfying `p` (the greedy group backtracks from the
longest candidate). -/
def findGreatest (p : Nat → Bool) : Nat → Option Nat
  | 0 => if p 0 then some 0 else none
  | n + 1 => if p (n + 1) then some (n + 1) else findGreatest p n

/-- Group 1 of `pl.col("Description").str.extract(r"^(.*): \[.*\]", 1)`:
the longest prefix of the first line followed by `": ["` with a later `]`
on that line (`.` never crosses a newline; the group is greedy). -/
def nameExtract (s : String) : Option String :=
  let line1 := s.data.takeWhile fun c => c ≠ '\n'
  match findGreatest (namePred line1) line1.length with
  | some k => some ⟨line1.take k⟩
  | none => none

/-- Drop through the first newline; `none` when no newline is left
(one `.*\n` unit of the regex). -/
def dropLine : List Char → Option (List Char)
  | [] => none
  | c :: cs => if c = '\n' then some cs else dropLine cs

/-- Group 1 of `.str.extract(r"^(?:.*\n){2}((?s).*?)(?:^Actual Value:|$)", 1)`:
after the first two newline-terminated lines, the lazy dotall group runs to
the end of the string, because the non-multiline `^` alternative can never
match away from position 0 and the non-multiline `$` only matches at the very
end.  No match (fewer than two newlines) is a null. -/
def descExtract (s : String) : Option String :=
  ((dropLine s.data).bind dropLine).map fun rest => (⟨rest⟩ : String)

/-- Does the leading whitespace run contain a newline?  This is the condition
for `Actual Value:\s*\n` to match at the current position. -/
def wsRunHasNl : List Char → Bool
  | [] => false
  | c :: cs => if c = '\n' then true else if c.isWhitespace then wsRunHasNl cs else false

/-- `.str.replace(pattern2, "")` with `pattern2 = r"Actual Value:\s*\n(?s)(.*)"`:
delete everything from the first `Actual Value:` marker whose following
whitespace run contains a newline, to the end of the string (the dotall
trailing group extends the match to the end). -/
def stripActual : List Char → List Char
  | [] => []
  | c :: cs =>
    if ("Actual Value:".data).isPrefixOf (c :: cs) && wsRunHasNl ((c :: cs).drop 13) then []
    else c :: stripActual cs

/-- `.str.extract(pattern2)` group 1: everything after the last newline of
the whitespace run following the first qualifying `Actual Value:` marker
(the greedy `\s*` backtracks to the last newline of the run). -/
def evidenceScan : List Char → Option (List Char)
  | [] => none
  | c :: cs =>
    if ("Actual Value:".data).isPrefixOf (c :: cs) && wsRunHasNl ((c :: cs).drop 13) then
      let tail := (c :: cs).drop 13
      let run := tail.takeWhile Char.isWhitespace
      let rest := tail.dropWhile Char.isWhitespace
      some ((run.reverse.takeWhile fun x => x ≠ '\n').reverse ++ rest)
    else evidenceScan cs

/-- `.str.extract(pattern2)` on strings. -/
def evidenceExtract (s : String) : Option String := (evidenceScan s.data).map fun l => (⟨l⟩ : String)

/-- One `with_columns` expression: replace the column in place when it
exists, else append it.  Every expression below reads only the original
`Description` column, which none of them overwrites, so evaluating them in
sequence agrees with the simultaneous polars semantics. -/
def withColumn (f : Frame) (name : String) (g : List (Option String) → Option String) : Frame :=
  match f.header.indexOf? name with
  | some i => ⟨f.header, f.rows.map fun r => r.set i (g r)⟩
  | none => ⟨f.header ++ [name], f.rows.map fun r => r ++ [g r]⟩

/-- Keep the entries whose flag is true (the `drop` projection). -/
def filterByFlags {α : Type} : List Bool → List α → List α
  | true :: fs, x :: xs => x :: filterByFlags fs xs
  | false :: fs, _ :: xs => filterByFlags fs xs
  | _, _ => []

/-- The columns dropped at the end of the compliance pipeline. -/
def dropNames : List String := ["VPR Score", "CVE", "Name", "Plugin Output", "Description"]

/-- `process` of Plugins/Compliance/Nessus/nessus.py (the collected lazy
pipeline): exact `"text/csv"` file-type check; `with_columns` deriving
`name` / `description` / `evidence` from the free-text `Description` column
and a null `risk` literal; the `Risk != "None"` / not-null filter; the
renames Solution→remediation and Risk→status; and the strict drop of the five
consumed source columns.  Note that `Solution` is renamed without any newline
substitution, and the null `risk` column survives the drop. -/
def process (fileType : String) (p : Except String Frame) : Except String Frame :=
  if fileType ≠ "text/csv" then .error ("File type not supported: " ++ fileType)
  else p.bind fun f =>
    match f.header.indexOf? "Description" with
    | none => .error "column not found: Description"
    | some di =>
      let f1 := withColumn f "name" fun r => (cellAt r di).bind nameExtract
      let f2 := withColumn f1 "description" fun r =>
        ((cellAt r di).bind descExtract).map fun s => brSubS "<br/>" ⟨stripActual s.data⟩
      let f3 := withColumn f2 "evidence" fun r =>
        ((cellAt r di).bind evidenceExtract).map fun s => stripS (brSubS "<br/>" s)
      let f4 := withColumn f3 "risk" fun _ => none
      match f4.header.indexOf? "Risk" with
      | none => .error "column not found: Risk"
      | some ri =>
        let f5 : Frame := ⟨f4.header, f4.rows.filter fun r => keepNessusRisk (cellAt r ri)⟩
        if f5.header.contains "Solution" then
          let hdr6 := f5.header.map fun h =>
            if h = "Solution" then "remediation" else if h = "Risk" then "status" else h
          if dropNames.all (fun n => hdr6.contains n) then
            let flags := hdr6.map fun h => !(dropNames.contains h)
            .ok ⟨filterByFlags flags hdr6, f5.rows.map (filterByFlags flags)⟩
          else .error "column not found in drop"
        else .error "column not found: Solution"

end ComplianceNessus

namespace Ywh

/-- The exporter's `CRITICALITY_MAP`. -/
def criticalityMap : List (String × String) :=
  [("critical", "CRITICAL"), ("c", "CRITICAL"), ("high", "HIGH"), ("h", "HIGH"),
   ("medium", "MEDIUM"), ("m", "MEDIUM"), ("low", "LOW"), ("l", "LOW")]

/-- `CRITICALITY_MAP.get(k)`. -/
def lookupMap (k : String) : Option String :=
  (criticalityMap.find? fun kv => kv.fst == k).map fun kv => kv.snd

/-- `convert_criticality` (ywh2csv.py lines 203-222): empty input is `None`;
otherwise the lower-cased, stripped value is looked up, and an unmapped value
is `None` (the caller then drops the row with a warning). -/
def convert_criticality (ywh_criticality : String) : Option String :=
  if ywh_criticality = "" then none
  else lookupMap (stripS (lowerStr ywh_criticality))

/-- `clean_scope` (ywh2csv.py lines 225-266): strip whitespace, turn escaped
slashes into slashes, drop the `https://` / `http://` protocol markers, cut
at the first `/` (path) and the first `:` (port), and keep only alphanumeric
characters, dots and hyphens. -/
def clean_scope (scope : String) : String :=
  if scope = "" then ""
  else
    let c1 := stripS scope
    let c2 := pyReplace c1 "\\/" "/"
    let c3 := pyReplace (pyReplace c2 "https://" "") "http://" ""
    let c4 := if c3.data.contains '/' then c3.data.takeWhile (fun c => c ≠ '/') else c3.data
    let c5 := if c4.contains ':' then c4.takeWhile (fun c => c ≠ ':') else c4
    ⟨c5.filter fun c => c.isAlphanum || c = '.' || c = '-'⟩

/-- `format_description` (ywh2csv.py lines 269-290): empty input is kept
empty; otherwise newlines become `<br/>` and a result longer than
`maxLength` is cut to its first `maxLength` characters plus `"..."`.
The source's default `max_length` is 5000, which both call sites use. -/
def format_description (description : String) (maxLength : Nat) : String :=
  if description = "" then ""
  else
    let formatted := brSubS "<br/>" description
    if formatted.length > maxLength then (⟨formatted.data.take maxLength⟩ : String) ++ "..."
    else formatted

/-- One YesWeHack report object, flattened to the fields
`map_report_to_csv_row` reads: `cvss_criticity` is the `criticity` field of
the nested `cvss` object, `bug_type_remediation_link` the `remediation_link`
of the nested `bug_type` object. -/
structure Report where
  local_id : Option String
  criticity : Option String
  cvss_criticity : Option String
  title : Option String
  description_html : Option String
  description : Option String
  remediation_link : Option String
  bug_type_remediation_link : Option String
  scope : Option String
deriving DecidableEq

/-- One exported CSV row under `CSV_HEADERS`; `PluginOutput` and `VprScore`
stand for the `"Plugin Output"` and `"VPR Score"` columns. -/
structure CsvRow where
  CVE : String
  Risk : String
  Host : String
  Port : String
  Name : String
  Description : String
  Solution : String
  PluginOutput : String
  VprScore : String
deriving DecidableEq

/-- `map_report_to_csv_row` (ywh2csv.py lines 345-413): prefer the detailed
report, apply the criticity / description / remediation-link fallback chains,
clean the scope into a host, convert the criticality (dropping the report on
failure), and build the row; `Solution` is the formatted remediation link
when one exists, else the formatted description. -/
def map_report_to_csv_row (report : Report) (detailed_report : Option Report) : Option CsvRow :=
  let source := detailed_report.getD report
  let local_id := getS source.local_id
  let criticity := pyOr (getS source.criticity) (getS source.cvss_criticity)
  let title := getS source.title
  let description := pyOr (getS source.description_html) (getS source.description)
  let remediation_link := pyOr (getS source.remediation_link) (getS source.bug_type_remediation_link)
  let scope := getS source.scope
  let host := if scope ≠ "" then clean_scope scope else ""
  match convert_criticality criticity with
  | none => none
  | some risk =>
    some { CVE := local_id
           Risk := risk
           Host := host
           Port := "0"
           Name := title
           Description := format_description description 5000
           Solution := if remediation_link ≠ "" then format_description remediation_link 5000
                       else format_description description 5000
           PluginOutput := ""
           VprScore := "" }

end Ywh

/-! ## Helper lemmas -/

theorem brSubList_noNl (rep : List Char) (h : '\n' ∉ rep) :
    ∀ l : List Char, '\n' ∉ brSubList rep l := by
  intro l
  induction l with
  | nil => simp [brSubList]
  | cons c cs ih =>
    by_cases hc : c = '\n'
    · simp only [brSubList, if_pos hc, List.mem_append]
      rintro (h1 | h2)
      · exact h h1
      · exact ih h2
    · simp only [brSubList, if_neg hc, List.mem_cons]
      rintro (h1 | h2)
      · exact hc h1.symm
      · exact ih h2

theorem brSubS_noNl (rep : String) (h : '\n' ∉ rep.data) (s : String) :
    noNl (brSubS rep s) :=
  brSubList_noNl rep.data h s.data

theorem brSubList_eq_self (rep : List Char) :
    ∀ l : List Char, '\n' ∉ l → brSubList rep l = l := by
  intro l
  induction l with
  | nil => intro _; rfl
  | cons c cs ih =>
    intro hmem
    have hc : c ≠ '\n' := fun hh => hmem (hh ▸ List.mem_cons_self c cs)
    have hcs : '\n' ∉ cs := fun hh => hmem (List.mem_cons_of_mem c hh)
    simp only [brSubList, if_neg hc, ih hcs]

theorem stripS_noNl (s : String) (h : noNl s) : noNl (stripS s) := by
  intro hmem
  apply h
  unfold stripS stripList at hmem
  simp only at hmem
  rw [List.mem_reverse] at hmem
  have h1 := (List.dropWhile_sublist _).mem hmem
  rw [List.mem_reverse] at h1
  exact (List.dropWhile_sublist _).mem h1

/-- A member of a risk-filtered row list has a valid risk. -/
theorem keepRisk_mem {l : List CanonicalRow} {r : CanonicalRow}
    (h : r ∈ l.filter keepRisk) : ∃ s, r.risk = some s ∧ s ∈ validRisks := by
  have h2 := (List.mem_filter.mp h).2
  unfold keepRisk at h2
  cases hr : r.risk with
  | some s =>
    rw [hr] at h2
    exact ⟨s, rfl, by simpa using h2⟩
  | none => rw [hr] at h2; cases h2

theorem contains_eq_false {l : List String} {a : String} (h : a ∉ l) :
    l.contains a = false := by
  simpa using h

/-! ## C5: the compliance CSV scenario -/

/-- C5: a compliance CSV row whose `Description` is
`"SSH Weak Ciphers: [tag]"`, a blank line, `"description text"`, then an
`"Actual Value:"` line followed by `"ssh -v output"`, with `Risk = "High"`,
yields a row with `name = "SSH Weak Ciphers"`, a description containing
`"description text"` but not the Actual Value block, evidence containing
`"ssh -v output"`, and status `"High"` (the `Risk` column after its rename;
the adapter's own `risk` column is the null literal). -/
theorem c5_compliance_scenario :
    ComplianceNessus.process "text/csv" (.ok ⟨csvHeaders,
      [[some "", some "High", some "10.0.0.5", some "22", some "x",
        some "SSH Weak Ciphers: [tag]\n\ndescription text\nActual Value:\nssh -v output",
        some "Disable weak ciphers", some "", some ""]]⟩) =
      .ok ⟨["status", "Host", "Port", "remediation", "name", "description", "evidence", "risk"],
        [[some "High", some "10.0.0.5", some "22", some "Disable weak ciphers",
          some "SSH Weak Ciphers", some "description text<br/>", some "ssh -v output", none]]⟩ ∧
    List.IsInfix "description text".data "description text<br/>".data ∧
    ¬ List.IsInfix "Actual Value".data "description text<br/>".data ∧
    List.IsInfix "ssh -v output".data "ssh -v output".data :=
  ⟨rfl, by decide, by decide, by decide⟩

/-! ## C6: the DAST XML scenario -/

/-- C6: an `<issue>` carrying `<severity>Information</severity>` is entirely
absent from the output, and an `<issue>` with `<severity>High</severity>`
whose `<host>` element has attribute `ip="10.0.0.1"` and no text content
yields an output row with `host = "10.0.0.1"`.  Running the adapter on
exactly those two issues returns the single row for the High issue, with the
host taken from the ip attribute. -/
theorem c6_burp_scenario :
    Burp.process "xml" (.ok
      [⟨some "Information", none, some "Server banner", some "info text", none, none, none, none⟩,
       ⟨some "High", some ⟨none, some "10.0.0.1"⟩, some "XSS", some "bg text", none,
        some "fix text", none, none⟩]) =
      .ok [{ cve := some "", risk := some "HIGH", host := some "10.0.0.1", port := some 0,
             name := some "XSS", description := some "bg text", remediation := some "fix text",
             evidence := some "", vpr_score := some "" }] := by
  rfl

/-! ## C8: the bug-bounty host-cleaning scenario -/

/-- C8: `clean_scope` strips protocol markers, path suffixes, port suffixes
and escaped-slash artifacts: the escaped input yields `"app.example.com"`
and the port-and-path input yields `"sub.domain.com"`. -/
theorem c8_clean_scope_scenario :
    Ywh.clean_scope "https:\\/\\/app.example.com\\/" = "app.example.com" ∧
    Ywh.clean_scope "https://sub.domain.com:8080/path" = "sub.domain.com" :=
  ⟨rfl, rfl⟩

/-! ## C1: the canonical-schema / risk-enumeration invariant -/

/-- C1 counterexample: the claim says that for EVERY adapter an output row's
risk is one of CRITICAL / HIGH / MEDIUM / LOW and off-enumeration rows never
reach the output.  The VA Nessus CSV adapter only drops the literal `"None"`:
a row with risk `"Info"` flows through to the output unchanged. -/
theorem c1_counterexample :
    VANessus.process "text/csv" (.ok ⟨csvHeaders,
      [[some "", some "Info", some "h", some "0", some "n", some "d",
        some "s", some "p", some ""]]⟩) =
      .ok ⟨canonicalHeader,
        [[some "", some "Info", some "h", some "0", some "n", some "d",
          some "s", some "p", some ""]]⟩ ∧
    "Info" ∉ validRisks :=
  ⟨rfl, by decide⟩

/-- C1 amended: the four adapters that do run the shared risk filter —
BurpSuite, ThreatCode, and both Trivy adapters — satisfy the invariant: on
any input on which `process` returns normally, every returned row (already
of the canonical 9-field shape, `CanonicalRow`) carries a risk drawn from the
4-value enumeration.  The two Nessus CSV adapters do not (they keep whatever
non-`"None"` risk the input had, or a null), and Semgrep hard-codes the
mixed-case `"Medium"`. -/
theorem c1_amended :
    (∀ ft p rows, Burp.process ft p = .ok rows →
      ∀ r ∈ rows, ∃ s, r.risk = some s ∧ s ∈ validRisks) ∧
    (∀ ft p rows, ThreatCode.process ft p = .ok rows →
      ∀ r ∈ rows, ∃ s, r.risk = some s ∧ s ∈ validRisks) ∧
    (∀ ft p rows, TrivyVA.process ft p = .ok rows →
      ∀ r ∈ rows, ∃ s, r.risk = some s ∧ s ∈ validRisks) ∧
    (∀ ft p rows, TrivySCA.process ft p = .ok rows →
      ∀ r ∈ rows, ∃ s, r.risk = some s ∧ s ∈ validRisks) := by
  refine ⟨?_, ?_, ?_, ?_⟩
  · intro ft p rows h r hr
    unfold Burp.process at h
    split at h
    · cases p with
      | error e => cases h
      | ok issues =>
        simp only [Except.map] at h
        injection h with h
        subst h
        split at hr
        · cases hr
        · exact keepRisk_mem hr
    · cases h
  · intro ft p rows h r hr
    unfold ThreatCode.process at h
    split at h
    · cases p with
      | error e => cases h
      | ok f =>
        simp only [Except.bind] at h
        split at h
        · injection h with h
          subst h
          split at hr
          · cases hr
          · exact keepRisk_mem hr
        · cases h
    · cases h
  · intro ft p rows h r hr
    unfold TrivyVA.process at h
    split at h
    · cases p with
      | error e => cases h
      | ok d =>
        simp only [Except.bind] at h
        split at h
        · injection h with h
          subst h
          unfold TrivyVA.finish at hr
          split at hr
          · cases hr
          · exact keepRisk_mem hr
        · split at h
          · injection h with h
            subst h
            unfold TrivyVA.finish at hr
            split at hr
            · cases hr
            · exact keepRisk_mem hr
          · cases h
    · cases h
  · intro ft p rows h r hr
    unfold TrivySCA.process at h
    split at h
    · cases p with
      | error e => cases h
      | ok d =>
        simp only [Except.bind] at h
        split at h
        · cases h
        · injection h with h
          subst h
          obtain ⟨r', hr', heq⟩ := List.mem_map.mp hr
          obtain ⟨s, hs1, hs2⟩ := keepRisk_mem hr'
          refine ⟨s, ?_, hs2⟩
          rw [← heq]
          exact hs1
    · cases h

/-- C1 witness: the Burp conjunct applied to one concrete High issue. -/
theorem c1_witness :
    ∃ s, (({ cve := some "", risk := some "HIGH", host := some "", port := some 0,
             name := some "", description := some "", remediation := some "",
             evidence := some "", vpr_score := some "" } : CanonicalRow)).risk = some s ∧
      s ∈ validRisks :=
  c1_amended.1 "xml"
    (.ok [⟨some "High", none, none, none, none, none, none, none⟩])
    [{ cve := some "", risk := some "HIGH", host := some "", port := some 0,
       name := some "", description := some "", remediation := some "",
       evidence := some "", vpr_score := some "" }]
    rfl _ (by simp)

/-! ## C2: file-type validation -/

/-- C2 counterexample: the claim says acceptance is case-insensitive and that
JSON adapters accept both `"json"` and `"application/json"`.  The SCA Trivy
adapter (a JSON adapter) accepts only the exact string `"json"` and rejects
`"application/json"`, and the Semgrep JSON adapter's membership test is
case-sensitive, rejecting `"JSON"`. -/
theorem c2_counterexample :
    TrivySCA.process "application/json" (.ok ⟨some []⟩) =
      .error "Unsupported file type: application/json" ∧
    Semgrep.process "JSON" (.ok ⟨some []⟩) =
      .error "Unsupported file type: JSON. Expected JSON." :=
  ⟨rfl, rfl⟩

/-- C2 amended: every adapter checks the declared file type first and fails
with its ValueError message on a mismatch, before looking at the parse
outcome (the conclusion holds for every `p`, including parse failures).
Acceptance is an exact, case-sensitive match everywhere except the BurpSuite
adapter, which lower-cases before comparing; Semgrep and the dual-shape
Trivy adapter accept both `"json"` and `"application/json"`, while the SCA
Trivy adapter accepts only `"json"`. -/
theorem c2_amended :
    (∀ ft p, ft ≠ "text/csv" →
      VANessus.process ft p = .error ("File type not supported: " ++ ft)) ∧
    (∀ ft p, ft ≠ "text/csv" →
      ComplianceNessus.process ft p = .error ("File type not supported: " ++ ft)) ∧
    (∀ ft p, (["application/json", "json"] : List String).contains ft = false →
      Semgrep.process ft p = .error ("Unsupported file type: " ++ ft ++ ". Expected JSON.")) ∧
    (∀ ft p, (["text/csv", "csv"] : List String).contains ft = false →
      ThreatCode.process ft p = .error ("Unsupported file type: " ++ ft ++ ". Expected CSV.")) ∧
    (∀ ft p, (["application/json", "json"] : List String).contains ft = false →
      TrivyVA.process ft p = .error ("Unsupported file type: " ++ ft ++ ". Expected JSON.")) ∧
    (∀ ft p, ft ≠ "json" →
      TrivySCA.process ft p = .error ("Unsupported file type: " ++ ft)) ∧
    (∀ ft p, (Burp.supportedTypes.map lowerStr).contains (lowerStr ft) = false →
      Burp.process ft p = .error ("Unsupported file type: " ++ ft ++ ". Expected XML format.")) ∧
    (∀ p, Burp.process "XML" p = Burp.process "xml" p) ∧
    (∀ p, Semgrep.process "application/json" p = Semgrep.process "json" p) ∧
    (∀ p, TrivyVA.process "application/json" p = TrivyVA.process "json" p) := by
  refine ⟨?_, ?_, ?_, ?_, ?_, ?_, ?_, fun p => rfl, fun p => rfl, fun p => rfl⟩
  · intro ft p h
    unfold VANessus.process
    rw [if_pos h]
  · intro ft p h
    unfold ComplianceNessus.process
    rw [if_pos h]
  · intro ft p h
    unfold Semgrep.process
    rw [if_neg (by simpa using h)]
  · intro ft p h
    unfold ThreatCode.process
    rw [if_neg (by simpa using h)]
  · intro ft p h
    unfold TrivyVA.process
    rw [if_neg (by simpa using h)]
  · intro ft p h
    unfold TrivySCA.process
    rw [if_neg h]
  · intro ft p h
    unfold Burp.process
    rw [if_neg (by simpa using h)]

/-- C2 witness: the SCA conjunct applied to a rejected file type with a parse
failure as the parse outcome — the format error, not the parse error, is
what comes back. -/
theorem c2_witness :
    TrivySCA.process "csv" (.error "invalid json") = .error "Unsupported file type: csv" :=
  c2_amended.2.2.2.2.2.1 "csv" (.error "invalid json") (by decide)

/-! ## C3: zero qualifying records -/

/-- C3 counterexample: the claim says every adapter returns an empty row set
"with the canonical 9-column schema".  On a CSV holding only the four columns
the VA Nessus adapter consumes, with its single row filtered out, the
adapter returns normally with an empty row set — but its schema is the
4-column renamed input header, not the canonical 9-column one. -/
theorem c3_counterexample :
    VANessus.process "text/csv" (.ok ⟨["Risk", "Solution", "Description", "Plugin Output"],
      [[some "None", some "s", some "d", some "p"]]⟩) =
      .ok ⟨["risk", "remediation", "description", "evidence"], []⟩ ∧
    ["risk", "remediation", "description", "evidence"] ≠ canonicalHeader :=
  ⟨rfl, by decide⟩

/-- C3 amended: on zero qualifying records every adapter returns an empty
row set without an error; for the five adapters whose output is the
`CanonicalRow` list (Semgrep, ThreatCode, both Trivy shapes, BurpSuite) the
empty set carries the canonical 9-column schema, while the two Nessus CSV
frame adapters return the renamed input schema (canonical only when the
input has exactly the standard header).  The conjuncts cover: an empty
Semgrep `results` array; a Burp export whose issues are all
severity-filtered; an empty legacy Trivy `vulnerabilities` array; a modern
Trivy `Results` array whose per-target lists are all missing or null;
an SCA vulnerability list that is all severity-filtered; a standard-header
ThreatCode CSV whose rows are all risk-filtered; a standard-header
VA Nessus CSV whose rows all fail the `!= "None"` filter, which returns the
empty frame under the canonical header; and a standard-header compliance
Nessus CSV whose rows all fail the same filter, which returns the empty
frame under its renamed 8-column schema, again without an error. -/
theorem c3_amended :
    (∀ d : Semgrep.Data, d.results.getD [] = [] → Semgrep.process "json" (.ok d) = .ok []) ∧
    (∀ issues : List Burp.Issue, (∀ i ∈ issues, upperStr (getS i.severity) ∉ validRisks) →
      Burp.process "xml" (.ok issues) = .ok []) ∧
    (∀ r, TrivyVA.process "json" (.ok ⟨some [], r⟩) = .ok []) ∧
    (∀ results : List TrivyVA.TrivyResult,
      (∀ re ∈ results, re.Vulnerabilities = none ∨ re.Vulnerabilities = some none) →
      TrivyVA.process "json" (.ok ⟨none, some results⟩) = .ok []) ∧
    (∀ vs : List TrivySCA.ScaVuln, (∀ v ∈ vs, ∀ s, v.severity = some s → upperStr s ∉ validRisks) →
      TrivySCA.process "json" (.ok ⟨some vs⟩) = .ok []) ∧
    (∀ xs : List NessusRow, (∀ x ∈ xs, ∀ s, x.riskC = some s → upperStr s ∉ validRisks) →
      ThreatCode.process "csv" (.ok ⟨csvHeaders, xs.map NessusRow.toList⟩) = .ok []) ∧
    (∀ xs : List NessusRow, (∀ x ∈ xs, keepNessusRisk x.riskC = false) →
      VANessus.process "text/csv" (.ok ⟨csvHeaders, xs.map NessusRow.toList⟩) =
        .ok ⟨canonicalHeader, []⟩) ∧
    (∀ xs : List NessusRow, (∀ x ∈ xs, keepNessusRisk x.riskC = false) →
      ComplianceNessus.process "text/csv" (.ok ⟨csvHeaders, xs.map NessusRow.toList⟩) =
        .ok ⟨["status", "Host", "Port", "remediation", "name", "description", "evidence", "risk"],
          []⟩) := by
  refine ⟨?_, ?_, ?_, ?_, ?_, ?_, ?_, ?_⟩
  · intro d h
    unfold Semgrep.process
    rw [if_pos (by decide)]
    simp [Except.map, h]
  · intro issues h
    unfold Burp.process
    rw [if_pos (by decide)]
    simp only [Except.map]
    congr 1
    split
    · rfl
    · apply List.filter_eq_nil_iff.mpr
      intro r hr
      simp only [List.map_map] at hr
      obtain ⟨i, hi, rfl⟩ := List.mem_map.mp hr
      show ¬ (validRisks.contains (upperStr (getS i.severity)) = true)
      rw [contains_eq_false (h i hi)]
      simp
  · intro r
    rfl
  · intro results h
    unfold TrivyVA.process
    rw [if_pos (by decide)]
    simp only [Except.bind]
    show Except.ok (TrivyVA.finish (results.map TrivyVA.modernRecords).flatten) = .ok []
    have hnil : (results.map TrivyVA.modernRecords).flatten = [] := by
      apply List.flatten_eq_nil_iff.mpr
      intro x hx
      obtain ⟨re, hre, rfl⟩ := List.mem_map.mp hx
      rcases h re hre with hv | hv <;> simp [TrivyVA.modernRecords, hv]
    rw [hnil]
    rfl
  · intro vs h
    unfold TrivySCA.process
    rw [if_pos rfl]
    simp only [Except.bind]
    show Except.ok (((vs.map TrivySCA.vulnRecord).filter keepRisk).map TrivySCA.brRecord) = .ok []
    have hnil : (vs.map TrivySCA.vulnRecord).filter keepRisk = [] := by
      apply List.filter_eq_nil_iff.mpr
      intro r hr
      obtain ⟨v, hv, rfl⟩ := List.mem_map.mp hr
      cases hsev : v.severity with
      | none => simp [keepRisk, TrivySCA.vulnRecord, hsev]
      | some s =>
        have hns := h v hv s hsev
        simp [keepRisk, TrivySCA.vulnRecord, hsev]
        exact hns
    rw [hnil]
    rfl
  · intro xs h
    unfold ThreatCode.process
    rw [if_pos (by decide)]
    simp only [Except.bind]
    show Except.ok
      (let records := (xs.map NessusRow.toList).map (ThreatCode.buildRow 0 1 2 4 5 6 7 8)
       let out := (records.map ThreatCode.brRecord).filter keepRisk
       if out.isEmpty then [] else out) = .ok []
    have hnil : (((xs.map NessusRow.toList).map (ThreatCode.buildRow 0 1 2 4 5 6 7 8)).map
        ThreatCode.brRecord).filter keepRisk = [] := by
      apply List.filter_eq_nil_iff.mpr
      intro r hr
      simp only [List.map_map] at hr
      obtain ⟨x, hx, rfl⟩ := List.mem_map.mp hr
      cases hrc : x.riskC with
      | none =>
        show ¬ (keepRisk (ThreatCode.brRecord
          (ThreatCode.buildRow 0 1 2 4 5 6 7 8 x.toList)) = true)
        simp [keepRisk, ThreatCode.brRecord, ThreatCode.buildRow, NessusRow.toList,
          cellAt, hrc]
      | some s =>
        have hns := h x hx s hrc
        show ¬ (keepRisk (ThreatCode.brRecord
          (ThreatCode.buildRow 0 1 2 4 5 6 7 8 x.toList)) = true)
        simp [keepRisk, ThreatCode.brRecord, ThreatCode.buildRow, NessusRow.toList,
          cellAt, hrc]
        exact hns
    simp only [hnil]
    rfl
  · intro xs h
    unfold VANessus.process
    rw [if_neg (by simp)]
    simp only [Except.bind]
    show (Except.ok (Frame.mk canonicalHeader
      (((xs.map NessusRow.toList).filter fun row => keepNessusRisk (cellAt row 1)).map
        (VANessus.mapCellsFrom [6, 5, 7] (Option.map (brSubS " <br/> ")) 0))) :
          Except String Frame) =
      .ok ⟨canonicalHeader, []⟩
    have hnil : (xs.map NessusRow.toList).filter (fun row => keepNessusRisk (cellAt row 1)) = [] := by
      apply List.filter_eq_nil_iff.mpr
      intro row hrow
      obtain ⟨x, hx, rfl⟩ := List.mem_map.mp hrow
      show ¬ (keepNessusRisk (cellAt x.toList 1) = true)
      have : cellAt x.toList 1 = x.riskC := rfl
      rw [this, h x hx]
      simp
    rw [hnil]
    rfl
  · intro xs h
    have step1 : ComplianceNessus.process "text/csv" (.ok ⟨csvHeaders, xs.map NessusRow.toList⟩) =
        .ok ⟨["status", "Host", "Port", "remediation", "name", "description", "evidence", "risk"],
          ((((((xs.map NessusRow.toList).map
                (fun r => r ++ [(cellAt r 5).bind ComplianceNessus.nameExtract])).map
                (fun r => r ++ [((cellAt r 5).bind ComplianceNessus.descExtract).map
                  fun s => brSubS "<br/>" ⟨ComplianceNessus.stripActual s.data⟩])).map
                (fun r => r ++ [((cellAt r 5).bind ComplianceNessus.evidenceExtract).map
                  fun s => stripS (brSubS "<br/>" s)])).map
                (fun r => r ++ [none])).filter
              (fun r => keepNessusRisk (cellAt r 1))).map
            (ComplianceNessus.filterByFlags
              [false, true, true, true, false, false, true, false, false,
               true, true, true, true])⟩ := rfl
    have hnil : (((((xs.map NessusRow.toList).map
          (fun r => r ++ [(cellAt r 5).bind ComplianceNessus.nameExtract])).map
          (fun r => r ++ [((cellAt r 5).bind ComplianceNessus.descExtract).map
            fun s => brSubS "<br/>" ⟨ComplianceNessus.stripActual s.data⟩])).map
          (fun r => r ++ [((cellAt r 5).bind ComplianceNessus.evidenceExtract).map
            fun s => stripS (brSubS "<br/>" s)])).map
          (fun r => r ++ [none])).filter
        (fun r => keepNessusRisk (cellAt r 1)) = [] := by
      apply List.filter_eq_nil_iff.mpr
      intro r hr
      simp only [List.map_map] at hr
      obtain ⟨x, hx, rfl⟩ := List.mem_map.mp hr
      intro hc
      have hc2 : keepNessusRisk x.riskC = true := hc
      rw [h x hx] at hc2
      cases hc2
    rw [step1, hnil]
    rfl

/-- C3 witness: the Burp conjunct applied to a single Information-severity
issue: the output is the empty canonical row set, not an error. -/
theorem c3_witness :
    Burp.process "xml" (.ok [⟨some "Information", none, none, none, none, none, none, none⟩]) =
      .ok [] :=
  c3_amended.2.1 [⟨some "Information", none, none, none, none, none, none, none⟩] (by decide)

/-! ## C4: the newline substitution -/

/-- A mapped nullable cell is newline-free when the mapping function always
strips newlines. -/
theorem noNlO_map {o : Option String} {f : String → String}
    (hf : ∀ t, noNl (f t)) : noNlO (o.map f) := by
  intro s hs
  cases o with
  | none => cases hs
  | some t =>
    rw [Option.map_some'] at hs
    injection hs with h2
    rw [← h2]
    exact hf t

/-- C4 counterexample: the claim says the substitution is applied to the
remediation field of every output row of every adapter.  The compliance
adapter renames `Solution` to `remediation` without any newline pass: a
Solution cell holding a raw newline reaches the output unchanged. -/
theorem c4_counterexample :
    ComplianceNessus.process "text/csv" (.ok ⟨csvHeaders,
      [[some "", some "High", some "h", some "0", some "n", some "d",
        some "line1\nline2", some "", some ""]]⟩) =
      .ok ⟨["status", "Host", "Port", "remediation", "name", "description", "evidence", "risk"],
        [[some "High", some "h", some "0", some "line1\nline2", none, none, none, none]]⟩ ∧
    ¬ noNl "line1\nline2" := by
  refine ⟨rfl, ?_⟩
  unfold noNl
  decide

/-- C4 amended: the substitution behaves as claimed for Semgrep, ThreatCode
and BurpSuite (description, remediation and evidence of every output row are
newline-free), and for the two Trivy adapters (whose evidence is the literal
empty string, so it is newline-free although no pass runs on it).  For the
VA Nessus adapter the pipeline on a standard-header CSV is characterized
exactly: the marker pass is applied once to the description, solution and
plugin-output cells and to nothing else.  For the compliance adapter only
the derived description and evidence columns are newline-free — its
remediation column is the untouched `Solution` (see the counterexample) —
and a ThreatCode name cell carrying a newline reaches the output unchanged,
showing the substitution touches no other field. -/
theorem c4_amended :
    (∀ ft p rows, Semgrep.process ft p = .ok rows →
      ∀ r ∈ rows, noNlO r.description ∧ noNlO r.remediation ∧ noNlO r.evidence) ∧
    (∀ ft p rows, ThreatCode.process ft p = .ok rows →
      ∀ r ∈ rows, noNlO r.description ∧ noNlO r.remediation ∧ noNlO r.evidence) ∧
    (∀ ft p rows, Burp.process ft p = .ok rows →
      ∀ r ∈ rows, noNlO r.description ∧ noNlO r.remediation ∧ noNlO r.evidence) ∧
    (∀ ft p rows, TrivyVA.process ft p = .ok rows →
      ∀ r ∈ rows, noNlO r.description ∧ noNlO r.remediation ∧ r.evidence = some "") ∧
    (∀ ft p rows, TrivySCA.process ft p = .ok rows →
      ∀ r ∈ rows, noNlO r.description ∧ noNlO r.remediation ∧ r.evidence = some "") ∧
    (∀ xs : List NessusRow,
      VANessus.process "text/csv" (.ok ⟨csvHeaders, xs.map NessusRow.toList⟩) =
        .ok ⟨canonicalHeader, (xs.filter fun x => keepNessusRisk x.riskC).map fun x =>
          [x.cveC, x.riskC, x.hostC, x.portC, x.nameC,
           x.descC.map (brSubS " <br/> "), x.solC.map (brSubS " <br/> "),
           x.poC.map (brSubS " <br/> "), x.vprC]⟩) ∧
    (∀ xs : List NessusRow, ∀ g,
      ComplianceNessus.process "text/csv" (.ok ⟨csvHeaders, xs.map NessusRow.toList⟩) = .ok g →
      ∀ row ∈ g.rows, noNlO (cellAt row 5) ∧ noNlO (cellAt row 6)) ∧
    (ThreatCode.process "csv" (.ok ⟨csvHeaders,
      [[some "c", some "HIGH", some "h", none, some "n\nx", some "d", some "s",
        some "p", some "1"]]⟩) =
      .ok [{ cve := some "c", risk := some "HIGH", host := some "h", port := some 0,
             name := some "n\nx", description := some "d", remediation := some "s",
             evidence := some "p", vpr_score := some "1" }] ∧
     ¬ noNl "n\nx") := by
  refine ⟨?_, ?_, ?_, ?_, ?_, ?_, ?_, rfl, by unfold noNl; decide⟩
  · intro ft p rows h r hr
    unfold Semgrep.process at h
    split at h
    · cases p with
      | error e => cases h
      | ok d =>
        simp only [Except.map] at h
        injection h with h
        subst h
        split at hr
        · cases hr
        · obtain ⟨r1, _, rfl⟩ := List.mem_map.mp hr
          exact ⟨noNlO_map (brSubS_noNl _ (by decide)), noNlO_map (brSubS_noNl _ (by decide)),
            noNlO_map (brSubS_noNl _ (by decide))⟩
    · cases h
  · intro ft p rows h r hr
    unfold ThreatCode.process at h
    split at h
    · cases p with
      | error e => cases h
      | ok f =>
        simp only [Except.bind] at h
        split at h
        · injection h with h
          subst h
          split at hr
          · cases hr
          · have hr2 := (List.mem_filter.mp hr).1
            obtain ⟨r1, _, rfl⟩ := List.mem_map.mp hr2
            exact ⟨noNlO_map (brSubS_noNl _ (by decide)), noNlO_map (brSubS_noNl _ (by decide)),
              noNlO_map (brSubS_noNl _ (by decide))⟩
        · cases h
    · cases h
  · intro ft p rows h r hr
    unfold Burp.process at h
    split at h
    · cases p with
      | error e => cases h
      | ok issues =>
        simp only [Except.map] at h
        injection h with h
        subst h
        split at hr
        · cases hr
        · have hr2 := (List.mem_filter.mp hr).1
          simp only [List.map_map] at hr2
          obtain ⟨i, _, rfl⟩ := List.mem_map.mp hr2
          refine ⟨?_, ?_, ?_⟩
          · show noNlO (Option.map (brSubS "<br/>") (Burp.issueRecord i).description)
            exact noNlO_map (brSubS_noNl _ (by decide))
          · show noNlO (Option.map (brSubS "<br/>") (Burp.issueRecord i).remediation)
            exact noNlO_map (brSubS_noNl _ (by decide))
          · show noNlO (Option.map (brSubS "<br/>") (Burp.issueRecord i).evidence)
            exact noNlO_map (brSubS_noNl _ (by decide))
    · cases h
  · intro ft p rows h r hr
    unfold TrivyVA.process at h
    split at h
    · cases p with
      | error e => cases h
      | ok d =>
        simp only [Except.bind] at h
        split at h
        · injection h with h
          subst h
          unfold TrivyVA.finish at hr
          split at hr
          · cases hr
          · have hr2 := (List.mem_filter.mp hr).1
            simp only [List.map_map] at hr2
            obtain ⟨v, _, rfl⟩ := List.mem_map.mp hr2
            refine ⟨?_, ?_, rfl⟩
            · show noNlO (Option.map (brSubS "<br/>")
                (TrivyVA.parse_legacy_vulnerability v d).description)
              exact noNlO_map (brSubS_noNl _ (by decide))
            · show noNlO (Option.map (brSubS "<br/>")
                (TrivyVA.parse_legacy_vulnerability v d).remediation)
              exact noNlO_map (brSubS_noNl _ (by decide))
        · split at h
          · injection h with h
            subst h
            unfold TrivyVA.finish at hr
            split at hr
            · cases hr
            · have hr2 := (List.mem_filter.mp hr).1
              simp only [List.map_map] at hr2
              obtain ⟨rec, hrec, rfl⟩ := List.mem_map.mp hr2
              rw [List.mem_flatten] at hrec
              obtain ⟨l, hl, hrecl⟩ := hrec
              obtain ⟨re, _, rfl⟩ := List.mem_map.mp hl
              rcases hV : re.Vulnerabilities with _ | (_ | vs) <;>
                simp only [TrivyVA.modernRecords, hV] at hrecl
              · cases hrecl
              · cases hrecl
              · obtain ⟨v, _, rfl⟩ := List.mem_map.mp hrecl
                refine ⟨?_, ?_, rfl⟩
                · show noNlO (Option.map (brSubS "<br/>")
                    (TrivyVA.parse_modern_vulnerability v (getS re.Target)).description)
                  exact noNlO_map (brSubS_noNl _ (by decide))
                · show noNlO (Option.map (brSubS "<br/>")
                    (TrivyVA.parse_modern_vulnerability v (getS re.Target)).remediation)
                  exact noNlO_map (brSubS_noNl _ (by decide))
          · cases h
    · cases h
  · intro ft p rows h r hr
    unfold TrivySCA.process at h
    split at h
    · cases p with
      | error e => cases h
      | ok d =>
        simp only [Except.bind] at h
        split at h
        · cases h
        · injection h with h
          subst h
          obtain ⟨r1, hr1, rfl⟩ := List.mem_map.mp hr
          have hr2 := (List.mem_filter.mp hr1).1
          obtain ⟨v, _, rfl⟩ := List.mem_map.mp hr2
          refine ⟨?_, ?_, rfl⟩
          · show noNlO (Option.map (brSubS "<br/>") (TrivySCA.vulnRecord v).description)
            exact noNlO_map (brSubS_noNl _ (by decide))
          · show noNlO (Option.map (brSubS "<br/>") (TrivySCA.vulnRecord v).remediation)
            exact noNlO_map (brSubS_noNl _ (by decide))
    · cases h
  · intro xs
    unfold VANessus.process
    rw [if_neg (by simp)]
    simp only [Except.bind]
    show (Except.ok (Frame.mk canonicalHeader
      (((xs.map NessusRow.toList).filter fun row => keepNessusRisk (cellAt row 1)).map
        (VANessus.mapCellsFrom [6, 5, 7] (Option.map (brSubS " <br/> ")) 0))) :
          Except String Frame) = _
    refine congrArg (fun rows => (Except.ok (Frame.mk canonicalHeader rows) :
      Except String Frame)) ?_
    rw [List.map_filter, List.map_map]
    rfl
  · intro xs g h row hrow
    have step1 : ComplianceNessus.process "text/csv" (.ok ⟨csvHeaders, xs.map NessusRow.toList⟩) =
        .ok ⟨["status", "Host", "Port", "remediation", "name", "description", "evidence", "risk"],
          ((((((xs.map NessusRow.toList).map
                (fun r => r ++ [(cellAt r 5).bind ComplianceNessus.nameExtract])).map
                (fun r => r ++ [((cellAt r 5).bind ComplianceNessus.descExtract).map
                  fun s => brSubS "<br/>" ⟨ComplianceNessus.stripActual s.data⟩])).map
                (fun r => r ++ [((cellAt r 5).bind ComplianceNessus.evidenceExtract).map
                  fun s => stripS (brSubS "<br/>" s)])).map
                (fun r => r ++ [none])).filter
              (fun r => keepNessusRisk (cellAt r 1))).map
            (ComplianceNessus.filterByFlags
              [false, true, true, true, false, false, true, false, false,
               true, true, true, true])⟩ := rfl
    rw [step1] at h
    injection h with h
    subst h
    obtain ⟨row4, hrow4, rfl⟩ := List.mem_map.mp hrow
    have hrow5 := (List.mem_filter.mp hrow4).1
    obtain ⟨row3, hrow3, rfl⟩ := List.mem_map.mp hrow5
    obtain ⟨row2, hrow2, rfl⟩ := List.mem_map.mp hrow3
    obtain ⟨row1, hrow1, rfl⟩ := List.mem_map.mp hrow2
    obtain ⟨row0, hrow0, rfl⟩ := List.mem_map.mp hrow1
    obtain ⟨x, _, rfl⟩ := List.mem_map.mp hrow0
    constructor
    · show noNlO ((x.descC.bind ComplianceNessus.descExtract).map
        fun s => brSubS "<br/>" ⟨ComplianceNessus.stripActual s.data⟩)
      exact (noNlO_map fun t => brSubS_noNl _ (by decide) _)
    · show noNlO ((x.descC.bind ComplianceNessus.evidenceExtract).map
        fun s => stripS (brSubS "<br/>" s))
      exact (noNlO_map fun t => stripS_noNl _ (brSubS_noNl _ (by decide) _))

/-- C4 witness: the Semgrep conjunct applied to one concrete result whose
message and fix carry raw newlines — the output row's three text fields are
newline-free. -/
theorem c4_witness :
    noNlO (({ cve := some "", risk := some "Medium", host := some "semgrep", port := some 3,
              name := some "rule", description := some "a<br/>b",
              remediation := some "f<br/>g",
              evidence := some "Line 3 - 4 in file : file.py", vpr_score := some "" } :
        CanonicalRow)).description ∧
    noNlO (({ cve := some "", risk := some "Medium", host := some "semgrep", port := some 3,
              name := some "rule", description := some "a<br/>b",
              remediation := some "f<br/>g",
              evidence := some "Line 3 - 4 in file : file.py", vpr_score := some "" } :
        CanonicalRow)).remediation ∧
    noNlO (({ cve := some "", risk := some "Medium", host := some "semgrep", port := some 3,
              name := some "rule", description := some "a<br/>b",
              remediation := some "f<br/>g",
              evidence := some "Line 3 - 4 in file : file.py", vpr_score := some "" } :
        CanonicalRow)).evidence :=
  c4_amended.1 "json"
    (.ok ⟨some [⟨some "rule", some "file.py", some ⟨some 3⟩, some ⟨some 4⟩,
      some ⟨some "a\nb", some "f\ng"⟩⟩]⟩)
    [{ cve := some "", risk := some "Medium", host := some "semgrep", port := some 3,
       name := some "rule", description := some "a<br/>b", remediation := some "f<br/>g",
       evidence := some "Line 3 - 4 in file : file.py", vpr_score := some "" }]
    rfl _ (List.mem_singleton.mpr rfl)

/-! ## C7: the dual-shape Trivy remediation and description fallbacks -/

/-- C7 counterexample: the claim attributes the description-to-Title
fallback to the legacy shape.  A legacy vulnerability with no description
field and `Title = "T"` comes out with an empty description — the legacy
parser never reads `Title` (it also keeps the raw `solution` string
verbatim, with no `Upgrade to version` derivation). -/
theorem c7_counterexample :
    TrivyVA.process "json" (.ok ⟨some [⟨some "CVE-1", none, none, some "High", none, none, none,
      none, none, none, none, none, some "fix it", some "T"⟩], none⟩) =
      .ok [{ cve := some "CVE-1", risk := some "HIGH", host := some "", port := some 0,
             name := some "CVE-1", description := some "", remediation := some "fix it",
             evidence := some "", vpr_score := some "" }] ∧
    (some "" : Option String) ≠ some "T" :=
  ⟨rfl, by decide⟩

/-- C7 amended: in the modern shape a non-empty `FixedVersion` yields
`remediation = "Upgrade to version X"` and an absent one yields
`"No fix available"`, and it is the modern shape that falls back the
description to `Title` when `Description` is empty.  The legacy shape maps an
empty solution chain or the literal `"No solution provided"` to
`"No fix available"`, passes any other `FixedVersion`/`solution` value
through verbatim (no `Upgrade to version` derivation), and derives its
description only from the `Description`/`description` fields, never `Title`. -/
theorem c7_amended :
    (∀ (v : TrivyVA.ModernVuln) target, getS v.FixedVersion ≠ "" →
      (TrivyVA.parse_modern_vulnerability v target).remediation =
        some ("Upgrade to version " ++ getS v.FixedVersion)) ∧
    (∀ (v : TrivyVA.ModernVuln) target, getS v.FixedVersion = "" →
      (TrivyVA.parse_modern_vulnerability v target).remediation = some "No fix available") ∧
    (∀ (v : TrivyVA.ModernVuln) target, getS v.Description = "" →
      (TrivyVA.parse_modern_vulnerability v target).description = some (getS v.Title)) ∧
    (∀ (v : TrivyVA.LegacyVuln) d,
      pyOr (getS v.FixedVersion) (getS v.solution) = "No solution provided" →
      (TrivyVA.parse_legacy_vulnerability v d).remediation = some "No fix available") ∧
    (∀ (v : TrivyVA.LegacyVuln) d, pyOr (getS v.FixedVersion) (getS v.solution) = "" →
      (TrivyVA.parse_legacy_vulnerability v d).remediation = some "No fix available") ∧
    (∀ (v : TrivyVA.LegacyVuln) d s, pyOr (getS v.FixedVersion) (getS v.solution) = s →
      s ≠ "" → s ≠ "No solution provided" →
      (TrivyVA.parse_legacy_vulnerability v d).remediation = some s) ∧
    (∀ (v : TrivyVA.LegacyVuln) d, (TrivyVA.parse_legacy_vulnerability v d).description =
      some (pyOr (getS v.Description) (getS v.description))) := by
  refine ⟨?_, ?_, ?_, ?_, ?_, ?_, fun v d => rfl⟩
  · intro v target h
    simp [TrivyVA.parse_modern_vulnerability, h]
  · intro v target h
    simp [TrivyVA.parse_modern_vulnerability, h]
  · intro v target h
    simp [TrivyVA.parse_modern_vulnerability, h]
  · intro v d h
    simp [TrivyVA.parse_legacy_vulnerability, h]
  · intro v d h
    simp [TrivyVA.parse_legacy_vulnerability, h]
  · intro v d s h hne1 hne2
    simp [TrivyVA.parse_legacy_vulnerability, h, hne1, hne2]

/-- C7 witness: the modern conjuncts applied at `FixedVersion = "1.2.3"`. -/
theorem c7_witness :
    (TrivyVA.parse_modern_vulnerability
      ⟨some "CVE-2", some "HIGH", some "openssl", none, some "T2", some "1.2.3"⟩
      "img").remediation = some "Upgrade to version 1.2.3" :=
  c7_amended.1 ⟨some "CVE-2", some "HIGH", some "openssl", none, some "T2", some "1.2.3"⟩
    "img" (by decide)

/-! ## C9: the 5000-character truncation -/

/-- C9: after newline replacement, a description or solution string longer
than 5000 characters is cut to its first 5000 characters with `"..."`
appended, a shorter one is passed through unchanged, and consequently every
value `format_description` writes is at most 5003 characters long.
Both the `Description` and `Solution` cells of `map_report_to_csv_row` are
images of `format_description` at the source's default length 5000. -/
theorem c9_truncation :
    (∀ s : String, (brSubS "<br/>" s).length > 5000 →
      Ywh.format_description s 5000 =
        (⟨(brSubS "<br/>" s).data.take 5000⟩ : String) ++ "...") ∧
    (∀ s : String, (brSubS "<br/>" s).length ≤ 5000 →
      Ywh.format_description s 5000 = brSubS "<br/>" s) ∧
    (∀ s : String, (Ywh.format_description s 5000).length ≤ 5003) := by
  refine ⟨?_, ?_, ?_⟩
  · intro s h
    by_cases hs : s = ""
    · subst hs
      exact absurd h (by decide)
    · simp only [Ywh.format_description]
      rw [if_neg hs, if_pos h]
  · intro s h
    by_cases hs : s = ""
    · subst hs
      rfl
    · simp only [Ywh.format_description]
      rw [if_neg hs, if_neg (by omega)]
  · intro s
    by_cases hs : s = ""
    · subst hs
      decide
    · simp only [Ywh.format_description]
      rw [if_neg hs]
      by_cases hlen : (brSubS "<br/>" s).length > 5000
      · rw [if_pos hlen]
        rw [String.length_append]
        have htake : (⟨(brSubS "<br/>" s).data.take 5000⟩ : String).length ≤ 5000 := by
          show ((brSubS "<br/>" s).data.take 5000).length ≤ 5000
          rw [List.length_take]
          omega
        have hdots : ("..." : String).length = 3 := by decide
        omega
      · rw [if_neg hlen]
        omega

/-- C9 witness: the truncation conjunct applied to a 5001-character string
(no newlines, so replacement keeps its length). -/
theorem c9_witness :
    (brSubS "<br/>" (⟨List.replicate 5001 'x'⟩ : String)).length > 5000 ∧
    Ywh.format_description (⟨List.replicate 5001 'x'⟩ : String) 5000 =
      (⟨(brSubS "<br/>" (⟨List.replicate 5001 'x'⟩ : String)).data.take 5000⟩ : String)
        ++ "..." := by
  have hnl : '\n' ∉ List.replicate 5001 'x' := by
    intro hmem
    exact absurd (List.eq_of_mem_replicate hmem) (by decide)
  have hlen : (brSubS "<br/>" (⟨List.replicate 5001 'x'⟩ : String)).length > 5000 := by
    show (brSubList "<br/>".data (List.replicate 5001 'x')).length > 5000
    rw [brSubList_eq_self _ _ hnl, List.length_replicate]
    omega
  exact ⟨hlen, c9_truncation.1 _ hlen⟩

/-! ## C10: the Solution fallback to the description -/

/-- C10: when the remediation link is absent both at the root level and
inside the bug-type object, the exported row's Solution equals its
Description (both are the formatted description), not an empty string or a
placeholder. -/
theorem c10_solution_fallback :
    ∀ (report : Ywh.Report) (detailed : Option Ywh.Report),
      getS (detailed.getD report).remediation_link = "" →
      getS (detailed.getD report).bug_type_remediation_link = "" →
      ∀ row, Ywh.map_report_to_csv_row report detailed = some row →
        row.Solution = row.Description := by
  intro report detailed h1 h2 row h
  simp only [Ywh.map_report_to_csv_row, h1, h2] at h
  split at h
  · cases h
  · injection h with h
    subst h
    simp [pyOr]

/-- C10 witness: the theorem applied to a concrete report with no
remediation link anywhere; its Solution cell is its Description cell. -/
theorem c10_witness :
    (({ CVE := "R1", Risk := "HIGH", Host := "a.b", Port := "0", Name := "Title",
        Description := "desc", Solution := "desc", PluginOutput := "", VprScore := "" } :
          Ywh.CsvRow)).Solution =
    (({ CVE := "R1", Risk := "HIGH", Host := "a.b", Port := "0", Name := "Title",
        Description := "desc", Solution := "desc", PluginOutput := "", VprScore := "" } :
          Ywh.CsvRow)).Description :=
  c10_solution_fallback
    ⟨some "R1", some "high", none, some "Title", some "desc", none, none, none,
     some "https://a.b/"⟩
    none rfl rfl _ rfl
